import Mathlib

/-!
Shallow embedding of `src/main.py` (FastAPI + MongoDB user CRUD service).

The embedding models:
- the pydantic models `UserCreate` / `UserUpdate` / `UserDB` and their field
  validation (`min_length=3` on `nome`, `gt=0` on `idade`);
- the MongoDB collaborator as a `Store` (a list of documents plus a counter
  from which fresh 24-hex-digit ObjectIds are generated), with `insert_one`,
  `find_one` (first match), `update_one` (`$set` on the first match, reporting
  `modified_count`), `delete_one` (first match) and `insert_many`;
- `bson.ObjectId(str)` acceptance: exactly 24 hexadecimal characters,
  normalised to lower case;
- the endpoint handlers `create_user`, `list_users`, `get_user`,
  `update_user`, `delete_user`, `upload_users`, including the
  `check_db_connection` 503 guard that each handler runs first, and the
  FastAPI body-validation boundary for the single-create path;
- the upload path byte-for-byte: strict UTF-8 decoding, `csv.reader`
  line/field splitting (comma delimiter, standard double-quote handling),
  Python `str.strip`, Python `int(...)` parsing, and the `try/except
  Exception` wrapper of `upload_users` that converts every exception raised
  inside the block — including the `HTTPException(400)` raised for an empty
  valid-record set — into an HTTP 500 response.

Machine integers: `idade` is a Python arbitrary-precision int, modelled as
`Int`. Identifiers are modelled as `String`.
-/

/-- Python exceptions that can be raised inside the `try` block of
`upload_users` and are caught by its `except Exception` clause. -/
inductive PyExc where
  /-- `str(contents, 'utf-8')` raised `UnicodeDecodeError`. -/
  | unicodeDecodeError
  /-- `int(row[1].strip())` raised `ValueError`; carries the stripped token. -/
  | valueErrorInt (token : String)
  /-- pydantic raised `ValidationError` constructing `UserCreate`. -/
  | validationError
  /-- an `HTTPException` raised inside the `try` block (line 240) was caught
  by the broad `except Exception` handler; carries its status code. -/
  | httpException (code : Nat)
deriving DecidableEq, Repr

/-- The distinct `detail` payloads of the HTTP error responses in `main.py`. -/
inductive ErrDetail where
  /-- "Serviço de Banco de Dados Indisponível" (503). -/
  | dbUnavailable
  /-- "ID inválido" (400). -/
  | idInvalid
  /-- "Nenhum campo para atualização fornecido" (400). -/
  | noUpdateFields
  /-- "Usuário com ID {id} não encontrado" (404); carries the raw path id. -/
  | userNotFound (id : String)
  /-- "Erro durante o processamento do arquivo: {e}" (500). -/
  | processingError (e : PyExc)
  /-- FastAPI request-body validation failure (422) at the framework
  boundary, before the handler body runs. -/
  | unprocessable
  /-- a `None` document where the handler indexes into it (`TypeError`),
  surfaced by FastAPI as a 500; unreachable in practice. -/
  | internalError
deriving DecidableEq, Repr

/-- Outcome of a handler: either a value or an HTTP error (status, detail). -/
inductive ApiResult (α : Type) where
  | ok (val : α)
  | err (status : Nat) (detail : ErrDetail)
deriving DecidableEq, Repr

/-- `class UserCreate(BaseModel)`: the validated shape (validation itself is
`userCreate?`). -/
structure UserCreate where
  nome : String
  idade : Int
deriving DecidableEq, Repr

/-- `class UserUpdate(BaseModel)`: both fields optional
(`model_dump(exclude_none=True)` keeps exactly the `some` fields). -/
structure UserUpdate where
  nome : Option String
  idade : Option Int
deriving DecidableEq, Repr

/-- `class UserDB(BaseModel)`: the serialized output shape, `id` already
converted to a string. -/
structure UserDB where
  id : String
  nome : String
  idade : Int
deriving DecidableEq, Repr

/-- A document of the `users` collection: `_id` plus the two user fields. -/
structure UserDoc where
  _id : String
  nome : String
  idade : Int
deriving DecidableEq, Repr

/-- The MongoDB collection: stored documents in insertion order, plus the
counter from which the driver generates the next fresh ObjectId. -/
structure Store where
  docs : List UserDoc
  nextId : Nat
deriving DecidableEq, Repr

/-- pydantic validation of `UserCreate`: `nome: str = Field(min_length=3)`
(character count of the raw string — pydantic does not trim) and
`idade: int = Field(gt=0)`. -/
def userCreate? (nome : String) (idade : Int) : Option UserCreate :=
  if 3 ≤ nome.length ∧ 0 < idade then some ⟨nome, idade⟩ else none

/-- Python `str.strip()` restricted to ASCII whitespace: drop whitespace
characters from both ends. -/
def pyStrip (s : String) : String :=
  ⟨((s.data.dropWhile Char.isWhitespace).reverse.dropWhile Char.isWhitespace).reverse⟩

/-- The digits accepted by Python `int(...)`. -/
def digitsToNat (ds : List Char) : Nat :=
  ds.foldl (fun a c => a * 10 + (c.toNat - 48)) 0

/-- Python `int(s)` on a string: strip whitespace, optional single sign, then
a non-empty run of decimal digits; anything else raises `ValueError`
(modelled as `none`). -/
def pyInt? (s : String) : Option Int :=
  let core : List Char → Option Nat := fun ds =>
    if ds ≠ [] ∧ ds.all Char.isDigit then some (digitsToNat ds) else none
  match (pyStrip s).data with
  | '+' :: ds => (core ds).map Int.ofNat
  | '-' :: ds => (core ds).map (fun n => -(n : Int))
  | ds => (core ds).map Int.ofNat

/-- The lower-case hexadecimal digit character for a value below 16, as
produced by `str(ObjectId)`. -/
def hexChar (n : Nat) : Char :=
  if n < 10 then Char.ofNat (48 + n) else Char.ofNat (87 + n)

/-- A character valid inside a hexadecimal ObjectId string. -/
def isHexChar (c : Char) : Bool :=
  (('0' ≤ c) && (c ≤ '9')) || (('a' ≤ c) && (c ≤ 'f')) || (('A' ≤ c) && (c ≤ 'F'))

/-- The fresh ObjectId the driver assigns to the n-th inserted document:
24 hexadecimal digits of the counter (big-endian, zero padded). -/
def genId (n : Nat) : String :=
  ⟨(List.range 24).map (fun i => hexChar (n / 16 ^ (23 - i) % 16))⟩

/-- `bson.ObjectId(id)` on a `str` argument: accepted exactly when the string
is 24 hexadecimal characters; the resulting ObjectId renders in lower case.
Any other string raises `InvalidId` (modelled as `none`). -/
def objectIdOfString (s : String) : Option String :=
  if s.data.length = 24 ∧ s.data.all isHexChar then
    some ⟨s.data.map Char.toLower⟩
  else none

/-- `users_collection.find_one({"_id": oid})`: first document with that key. -/
def find_one (st : Store) (oid : String) : Option UserDoc :=
  st.docs.find? (fun d => d._id == oid)

/-- `{"$set": update_data}` applied to one document: each supplied field
overwrites, the `_id` is untouched. -/
def applySet (d : UserDoc) (u : UserUpdate) : UserDoc :=
  ⟨d._id, u.nome.getD d.nome, u.idade.getD d.idade⟩

/-- `users_collection.update_one({"_id": oid}, {"$set": u})`: apply `$set` to
the first matching document; return the new document list and the
`modified_count` (1 exactly when a document matched and actually changed). -/
def updateDocs : List UserDoc → String → UserUpdate → List UserDoc × Nat
  | [], _, _ => ([], 0)
  | d :: ds, oid, u =>
    if d._id = oid then
      (applySet d u :: ds, if applySet d u = d then 0 else 1)
    else
      let r := updateDocs ds oid u
      (d :: r.1, r.2)

/-- `users_collection.delete_one({"_id": oid})`: remove the first matching
document; return the new list and the `deleted_count`. -/
def deleteDocs : List UserDoc → String → List UserDoc × Nat
  | [], _ => ([], 0)
  | d :: ds, oid =>
    if d._id = oid then (ds, 1)
    else
      let r := deleteDocs ds oid
      (d :: r.1, r.2)

/-- `insert_one`: assign the fresh ObjectId, append the document, bump the
counter; returns the `inserted_id`. -/
def insert_one (st : Store) (u : UserCreate) : String × Store :=
  (genId st.nextId,
   ⟨st.docs ++ [⟨genId st.nextId, u.nome, u.idade⟩], st.nextId + 1⟩)

/-- `insert_many`: insert the documents one by one in order; returns the list
of `inserted_ids`. -/
def insert_many (st : Store) : List UserCreate → List String × Store
  | [] => ([], st)
  | u :: rest =>
    let r := insert_one st u
    let r' := insert_many r.2 rest
    (r.1 :: r'.1, r'.2)

/-- `document['id'] = str(document.pop('_id'))` followed by the `UserDB`
shape. -/
def serializeDoc (d : UserDoc) : UserDB :=
  ⟨d._id, d.nome, d.idade⟩

/-- The empty collection. -/
def emptyStore : Store := ⟨[], 0⟩

/-! ### The endpoint handlers

Each handler takes the process-wide `users_collection` as `Option Store`
(`none` models "connection not established", the state `check_db_connection`
tests). Handlers that can write return the resulting collection as well. -/

/-- `create_user(user: UserCreate)`: connection check, `insert_one`, re-fetch
by the `inserted_id`, serialize. The argument is the already-validated body
(FastAPI validates it before the handler runs; see `single_create`). -/
def create_user (db : Option Store) (u : UserCreate) : ApiResult UserDB × Option Store :=
  match db with
  | none => (.err 503 .dbUnavailable, none)
  | some st =>
    match find_one (insert_one st u).2 (insert_one st u).1 with
    | some d => (.ok (serializeDoc d), some (insert_one st u).2)
    | none => (.err 500 .internalError, some (insert_one st u).2)

/-- The FastAPI boundary of `POST /users/`: the request body is validated
against `UserCreate` (422 on failure) and only then the handler runs. -/
def single_create (db : Option Store) (nome : String) (idade : Int) :
    ApiResult UserDB × Option Store :=
  match userCreate? nome idade with
  | none => (.err 422 .unprocessable, db)
  | some u => create_user db u

/-- `list_users()`: connection check, then the full scan, serialized. -/
def list_users (db : Option Store) : ApiResult (List UserDB) :=
  match db with
  | none => .err 503 .dbUnavailable
  | some st => .ok (st.docs.map serializeDoc)

/-- `get_user(id)`: connection check, then `ObjectId(id)` (400 on
`InvalidId`), then `find_one` (404 when no document matches). -/
def get_user (db : Option Store) (id : String) : ApiResult UserDB :=
  match db with
  | none => .err 503 .dbUnavailable
  | some st =>
    match objectIdOfString id with
    | none => .err 400 .idInvalid
    | some oid =>
      match find_one st oid with
      | some d => .ok (serializeDoc d)
      | none => .err 404 (.userNotFound id)

/-- The tail of the update handler once the id parsed and the field set is
non-empty: `update_one`, then the branch on `modified_count == 1` — on
success re-fetch and return the document, otherwise answer 404. -/
def updateCore (st : Store) (id oid : String) (u : UserUpdate) :
    ApiResult UserDB × Option Store :=
  if (updateDocs st.docs oid u).2 = 1 then
    match find_one ⟨(updateDocs st.docs oid u).1, st.nextId⟩ oid with
    | some d => (.ok (serializeDoc d), some ⟨(updateDocs st.docs oid u).1, st.nextId⟩)
    | none => (.err 500 .internalError, some ⟨(updateDocs st.docs oid u).1, st.nextId⟩)
  else
    (.err 404 (.userNotFound id), some ⟨(updateDocs st.docs oid u).1, st.nextId⟩)

/-- `update_user(id, user_update)`: connection check, `ObjectId(id)` (400),
emptiness check on `model_dump(exclude_none=True)` (400), then
`updateCore`. -/
def update_user (db : Option Store) (id : String) (u : UserUpdate) :
    ApiResult UserDB × Option Store :=
  match db with
  | none => (.err 503 .dbUnavailable, none)
  | some st =>
    match objectIdOfString id with
    | none => (.err 400 .idInvalid, some st)
    | some oid =>
      if u.nome = none ∧ u.idade = none then
        (.err 400 .noUpdateFields, some st)
      else
        updateCore st id oid u

/-- `delete_user(id)`: connection check, `ObjectId(id)` (400), `delete_one`;
204 when `deleted_count == 1`, else 404. -/
def delete_user (db : Option Store) (id : String) : ApiResult Nat × Option Store :=
  match db with
  | none => (.err 503 .dbUnavailable, none)
  | some st =>
    match objectIdOfString id with
    | none => (.err 400 .idInvalid, some st)
    | some oid =>
      let r := deleteDocs st.docs oid
      let st' : Store := ⟨r.1, st.nextId⟩
      if r.2 = 1 then (.ok 204, some st')
      else (.err 404 (.userNotFound id), some st')

/-! ### The upload path -/

/-- Strict UTF-8 decoding of `str(contents, 'utf-8')`: rejects stray
continuation bytes, overlong forms, surrogate code points and values above
U+10FFFF, exactly as CPython's strict codec does. -/
def utf8Decode : List Nat → Option (List Char)
  | [] => some []
  | b :: rest =>
    if b < 0x80 then
      match utf8Decode rest with
      | some cs => some (Char.ofNat b :: cs)
      | none => none
    else if 0xC2 ≤ b ∧ b ≤ 0xDF then
      match rest with
      | b1 :: rest2 =>
        if 0x80 ≤ b1 ∧ b1 ≤ 0xBF then
          match utf8Decode rest2 with
          | some cs => some (Char.ofNat ((b - 0xC0) * 64 + (b1 - 0x80)) :: cs)
          | none => none
        else none
      | [] => none
    else if 0xE0 ≤ b ∧ b ≤ 0xEF then
      match rest with
      | b1 :: b2 :: rest3 =>
        if (if b = 0xE0 then 0xA0 ≤ b1 ∧ b1 ≤ 0xBF
            else if b = 0xED then 0x80 ≤ b1 ∧ b1 ≤ 0x9F
            else 0x80 ≤ b1 ∧ b1 ≤ 0xBF) ∧ (0x80 ≤ b2 ∧ b2 ≤ 0xBF) then
          match utf8Decode rest3 with
          | some cs =>
            some (Char.ofNat ((b - 0xE0) * 4096 + (b1 - 0x80) * 64 + (b2 - 0x80)) :: cs)
          | none => none
        else none
      | _ => none
    else if 0xF0 ≤ b ∧ b ≤ 0xF4 then
      match rest with
      | b1 :: b2 :: b3 :: rest4 =>
        if (if b = 0xF0 then 0x90 ≤ b1 ∧ b1 ≤ 0xBF
            else if b = 0xF4 then 0x80 ≤ b1 ∧ b1 ≤ 0x8F
            else 0x80 ≤ b1 ∧ b1 ≤ 0xBF) ∧
           (0x80 ≤ b2 ∧ b2 ≤ 0xBF) ∧ (0x80 ≤ b3 ∧ b3 ≤ 0xBF) then
          match utf8Decode rest4 with
          | some cs =>
            some (Char.ofNat ((b - 0xF0) * 262144 + (b1 - 0x80) * 4096 +
                              (b2 - 0x80) * 64 + (b3 - 0x80)) :: cs)
          | none => none
        else none
      | _ => none
    else none

/-- UTF-8 encoding of one character (used to build concrete byte inputs). -/
def utf8EncodeChar (c : Char) : List Nat :=
  let n := c.toNat
  if n < 0x80 then [n]
  else if n < 0x800 then [0xC0 + n / 64, 0x80 + n % 64]
  else if n < 0x10000 then
    [0xE0 + n / 4096, 0x80 + n / 64 % 64, 0x80 + n % 64]
  else
    [0xF0 + n / 262144, 0x80 + n / 4096 % 64, 0x80 + n / 64 % 64, 0x80 + n % 64]

/-- UTF-8 encoding of a string. -/
def utf8Encode (s : String) : List Nat :=
  (s.data.map utf8EncodeChar).flatten

/-- Split the decoded text into the lines `csv.reader` iterates over. -/
def splitLinesAux : List Char → List Char → List (List Char)
  | [], cur => [cur.reverse]
  | c :: rest, cur =>
    if c = '\n' then cur.reverse :: splitLinesAux rest []
    else splitLinesAux rest (c :: cur)

/-- One `csv.reader` record from one line: comma-delimited fields with
standard double-quote handling (a quote opens a quoted section, a doubled
quote inside it is a literal quote). Arguments: remaining input, current
field, finished fields, inside-quotes flag. -/
def csvFieldsAux : List Char → List Char → List (List Char) → Bool → List (List Char)
  | [], cur, acc, _ => acc ++ [cur]
  | '"' :: '"' :: rest, cur, acc, true => csvFieldsAux rest (cur ++ ['"']) acc true
  | '"' :: rest, cur, acc, true => csvFieldsAux rest cur acc false
  | c :: rest, cur, acc, true => csvFieldsAux rest (cur ++ [c]) acc true
  | ',' :: rest, cur, acc, false => csvFieldsAux rest [] (acc ++ [cur]) false
  | '"' :: rest, cur, acc, false => csvFieldsAux rest cur acc true
  | c :: rest, cur, acc, false => csvFieldsAux rest (cur ++ [c]) acc false

/-- A `csv.reader` row for one line: a blank line yields the empty row. -/
def csvRowOfLine (l : List Char) : List String :=
  match l with
  | [] => []
  | _ => (csvFieldsAux l [] [] false).map fun cs => ⟨cs⟩

/-- `csv.reader(io.StringIO(s), delimiter=',')` as a list of rows: one row
per line, no row for the empty segment after a trailing newline. -/
def csvRows (chars : List Char) : List (List String) :=
  let lines := splitLinesAux chars []
  let lines := if lines.getLast? = some [] then lines.dropLast else lines
  lines.map csvRowOfLine

/-- One iteration of the `for row in reader` loop: a row without exactly two
fields is passed over (`.ok none`); for a two-field row, `row[1].strip()` is
fed to `int(...)` (a `ValueError` escapes the loop) and then `UserCreate`
validates the stripped name and the parsed age (a `ValidationError` escapes
the loop); a validated record is appended (`.ok (some u)`). -/
def rowUser (row : List String) : Except PyExc (Option UserCreate) :=
  if row.length = 2 then
    match pyInt? (pyStrip (row.getD 1 "")) with
    | none => .error (.valueErrorInt (pyStrip (row.getD 1 "")))
    | some idade =>
      match userCreate? (pyStrip (row.getD 0 "")) idade with
      | none => .error .validationError
      | some u => .ok (some u)
  else .ok none

/-- The whole `for row in reader` loop, accumulating `users_to_insert`: the
first exception aborts the loop (there is no inner `try`). -/
def buildUsers : List (List String) → List UserCreate → Except PyExc (List UserCreate)
  | [], acc => .ok acc
  | row :: rest, acc =>
    match rowUser row with
    | .error e => .error e
    | .ok none => buildUsers rest acc
    | .ok (some u) => buildUsers rest (acc ++ [u])

deriving instance DecidableEq for Except

/-- The fixed success message of the upload endpoint. -/
def uploadMessage : String := "Upload e Inserção em massa concluída."

/-- The success payload of `upload_users`. -/
structure UploadOk where
  message : String
  inserted_count : Nat
deriving DecidableEq, Repr

/-- The part of the `try` block after a successful decode: CSV parse, the
accumulation loop, the emptiness check (which raises `HTTPException(400)`,
caught by the `except Exception` clause and turned into a 500), then
`insert_many` with the success payload. -/
def processText (st : Store) (chars : List Char) : ApiResult UploadOk × Store :=
  match buildUsers (csvRows chars) [] with
  | .error e => (.err 500 (.processingError e), st)
  | .ok [] => (.err 500 (.processingError (.httpException 400)), st)
  | .ok users =>
    let r := insert_many st users
    (.ok ⟨uploadMessage, r.1.length⟩, r.2)

/-- `upload_users(file)`: connection check; then one `try` block — UTF-8
decode, then `processText` — whose `except Exception` clause turns every
exception raised inside it (the `HTTPException(400)` included) into an HTTP
500 response. -/
def upload_users (db : Option Store) (contents : List Nat) :
    ApiResult UploadOk × Option Store :=
  match db with
  | none => (.err 503 .dbUnavailable, none)
  | some st =>
    match utf8Decode contents with
    | none => (.err 500 (.processingError .unicodeDecodeError), some st)
    | some chars =>
      let r := processText st chars
      (r.1, some r.2)

-- sanity examples, removed obligations are inline
example : pyInt? " 30 " = some 30 := by decide
example : pyInt? "x" = none := by decide
example : pyInt? "-5" = some (-5) := by decide
example : pyStrip "  a  " = "a" := by decide
example : objectIdOfString "abc" = none := by decide
example : objectIdOfString "0123456789abcdef01234567" = some "0123456789abcdef01234567" := by decide
example : genId 0 = "000000000000000000000000" := by decide
example : csvRows "Ana,30\nBo,x\nCarla Mendes,28".data =
    [["Ana", "30"], ["Bo", "x"], ["Carla Mendes", "28"]] := by decide
example : csvRows "a\n\nb\n".data = [["a"], [], ["b"]] := by decide
example : csvRows "".data = [] := by decide
example : csvRows "\"a,b\",c".data = [["a,b", "c"]] := by decide
example : utf8Decode (utf8Encode "Ana,é") = some "Ana,é".data := by decide
example : utf8Decode [0xFF] = none := by decide
example : utf8Decode [0xC3] = none := by decide
example : buildUsers [["Ana", "30"], ["Bo", "x"], ["Carla Mendes", "28"]] [] =
    .error (.valueErrorInt "x") := by decide
example : buildUsers [["Ana", "30"], ["Carla Mendes", "28"]] [] =
    .ok [⟨"Ana", 30⟩, ⟨"Carla Mendes", 28⟩] := by decide
example : upload_users (some emptyStore) (utf8Encode "Ana,30\nCarla Mendes,28") =
    (.ok ⟨uploadMessage, 2⟩,
     some ⟨[⟨genId 0, "Ana", 30⟩, ⟨genId 1, "Carla Mendes", 28⟩], 2⟩) := by decide

/-! ### Helper lemmas -/

theorem dropWhile_length_le {α : Type} (p : α → Bool) (l : List α) :
    (l.dropWhile p).length ≤ l.length := by
  induction l with
  | nil => simp [List.dropWhile]
  | cons a l ih =>
    simp only [List.dropWhile]
    split
    · exact Nat.le_succ_of_le ih
    · exact Nat.le_refl _

theorem pyStrip_length_le (s : String) : (pyStrip s).length ≤ s.length := by
  have h1 := dropWhile_length_le Char.isWhitespace s.data
  have h2 := dropWhile_length_le Char.isWhitespace
    (s.data.dropWhile Char.isWhitespace).reverse
  show (((s.data.dropWhile Char.isWhitespace).reverse.dropWhile
      Char.isWhitespace).reverse).length ≤ s.data.length
  rw [List.length_reverse]
  rw [List.length_reverse] at h2
  omega

theorem hexChar_hex {j : Nat} (h : j < 16) : isHexChar (hexChar j) = true := by
  revert h
  revert j
  decide

theorem hexChar_lower {j : Nat} (h : j < 16) : (hexChar j).toLower = hexChar j := by
  revert h
  revert j
  decide

theorem genId_data (n : Nat) :
    (genId n).data = (List.range 24).map (fun i => hexChar (n / 16 ^ (23 - i) % 16)) := rfl

theorem genId_length (n : Nat) : (genId n).data.length = 24 := by
  rw [genId_data, List.length_map, List.length_range]

theorem genId_all_hex (n : Nat) : (genId n).data.all isHexChar = true := by
  rw [genId_data, List.all_eq_true]
  intro c hc
  rw [List.mem_map] at hc
  obtain ⟨i, -, rfl⟩ := hc
  exact hexChar_hex (Nat.mod_lt _ (by omega))

theorem map_id_of_eq {α : Type} (f : α → α) (l : List α) (h : ∀ a ∈ l, f a = a) :
    l.map f = l := by
  induction l with
  | nil => rfl
  | cons a t ih =>
    rw [List.map_cons, h a (by simp), ih (fun x hx => h x (by simp [hx]))]

theorem genId_lower (n : Nat) : (genId n).data.map Char.toLower = (genId n).data := by
  apply map_id_of_eq
  intro c hc
  rw [genId_data, List.mem_map] at hc
  obtain ⟨i, -, rfl⟩ := hc
  exact hexChar_lower (Nat.mod_lt _ (by omega))

theorem objectId_genId (n : Nat) : objectIdOfString (genId n) = some (genId n) := by
  unfold objectIdOfString
  rw [if_pos ⟨genId_length n, genId_all_hex n⟩]
  have h := genId_lower n
  calc (some (⟨(genId n).data.map Char.toLower⟩ : String))
      = some (⟨(genId n).data⟩ : String) := by rw [h]
    _ = some (genId n) := rfl

theorem genId_ne_empty (n : Nat) : genId n ≠ "" := by
  intro h
  have hl : (genId n).data.length = ("" : String).data.length := by rw [h]
  rw [genId_length] at hl
  simp at hl

theorem find?_append_of_none {α : Type} (p : α → Bool) (l1 l2 : List α)
    (h : ∀ x ∈ l1, p x = false) : (l1 ++ l2).find? p = l2.find? p := by
  induction l1 with
  | nil => rfl
  | cons a t ih =>
    rw [List.cons_append, List.find?_cons, h a (by simp)]
    exact ih (fun x hx => h x (by simp [hx]))

theorem find_one_insert (st : Store) (u : UserCreate)
    (hfresh : ∀ d ∈ st.docs, d._id ≠ genId st.nextId) :
    find_one (insert_one st u).2 (insert_one st u).1 =
      some ⟨genId st.nextId, u.nome, u.idade⟩ := by
  show (st.docs ++ [(⟨genId st.nextId, u.nome, u.idade⟩ : UserDoc)]).find?
      (fun d => d._id == genId st.nextId) =
    some ⟨genId st.nextId, u.nome, u.idade⟩
  rw [find?_append_of_none]
  · exact List.find?_cons_of_pos _ (by simp)
  · intro d hd
    simpa using hfresh d hd

theorem applySet_id (d : UserDoc) (u : UserUpdate) : (applySet d u)._id = d._id := rfl

theorem updateDocs_not_found (docs : List UserDoc) (oid : String) (u : UserUpdate)
    (h : ∀ x ∈ docs, x._id ≠ oid) :
    updateDocs docs oid u = (docs, 0) := by
  induction docs with
  | nil => rfl
  | cons d ds ih =>
    simp only [updateDocs]
    rw [if_neg (h d (by simp))]
    rw [ih (fun x hx => h x (by simp [hx]))]

theorem updateDocs_noop (docs : List UserDoc) (oid : String) (u : UserUpdate) (d : UserDoc)
    (hfind : docs.find? (fun x => x._id == oid) = some d)
    (hnoop : applySet d u = d) :
    updateDocs docs oid u = (docs, 0) := by
  induction docs with
  | nil => cases hfind
  | cons e ds ih =>
    by_cases pe : e._id = oid
    · rw [List.find?_cons_of_pos _ (by simpa using pe)] at hfind
      obtain rfl : e = d := by injection hfind
      simp only [updateDocs]
      rw [if_pos pe, if_pos hnoop, hnoop]
    · rw [List.find?_cons_of_neg _ (by simpa using pe)] at hfind
      simp only [updateDocs]
      rw [if_neg pe, ih hfind]

theorem updateDocs_mod (docs : List UserDoc) (oid : String) (u : UserUpdate) (d : UserDoc)
    (hfind : docs.find? (fun x => x._id == oid) = some d)
    (hmod : applySet d u ≠ d) :
    (updateDocs docs oid u).2 = 1 ∧
    (updateDocs docs oid u).1.find? (fun x => x._id == oid) = some (applySet d u) := by
  induction docs with
  | nil => cases hfind
  | cons e ds ih =>
    by_cases pe : e._id = oid
    · rw [List.find?_cons_of_pos _ (by simpa using pe)] at hfind
      obtain rfl : e = d := by injection hfind
      simp only [updateDocs]
      rw [if_pos pe, if_neg hmod]
      refine ⟨rfl, ?_⟩
      exact List.find?_cons_of_pos _ (by simpa [applySet_id] using pe)
    · rw [List.find?_cons_of_neg _ (by simpa using pe)] at hfind
      simp only [updateDocs]
      rw [if_neg pe]
      obtain ⟨h1, h2⟩ := ih hfind
      refine ⟨h1, ?_⟩
      rw [List.find?_cons_of_neg _ (by simpa using pe), h2]

/-! ### Claim theorems -/

/-- C1 (counterexample): bulk import of `"Ana,30\nBo,x\nCarla Mendes,28"`
does not produce a success response with `inserted_count = 2`: the row
`Bo,x` is not skipped, contrary to the claim. -/
theorem claim1_counterexample :
    (upload_users (some emptyStore)
        (utf8Encode "Ana,30\nBo,x\nCarla Mendes,28")).1 ≠
      ApiResult.ok ⟨uploadMessage, 2⟩ := by decide

/-- C1 (amended): in the bulk-import path a two-field row whose fields fail
validation is not skipped: the exception it raises (`ValueError` from
`int(...)` or pydantic `ValidationError`) aborts the whole request, which
fails with HTTP 500, and nothing is written (the store is returned
unchanged). Whenever row processing ends in an exception `e`, the response
is the 500 processing error wrapping `e`. -/
theorem claim1_amended (st : Store) (contents : List Nat) (chars : List Char)
    (e : PyExc)
    (hdec : utf8Decode contents = some chars)
    (hrows : buildUsers (csvRows chars) [] = .error e) :
    upload_users (some st) contents =
      (.err 500 (.processingError e), some st) := by
  unfold upload_users
  rw [hdec]
  show ((processText st chars).1, some (processText st chars).2) =
    (.err 500 (.processingError e), some st)
  unfold processText
  rw [hrows]

/-- C1 (witness): for the spec's example input the import aborts with the
`ValueError` on `int("x")`: HTTP 500, store unchanged. -/
theorem claim1_witness :
    upload_users (some emptyStore)
        (utf8Encode "Ana,30\nBo,x\nCarla Mendes,28") =
      (.err 500 (.processingError (.valueErrorInt "x")), some emptyStore) :=
  claim1_amended emptyStore _ "Ana,30\nBo,x\nCarla Mendes,28".data
    (.valueErrorInt "x") (by decide) (by decide)

/-- C2 (code behaviour at the failing input): when row processing yields
zero valid records, the handler raises `HTTPException(400)` ("Nenhum dado
válido de usuário encontrado no arquivo."), but that exception is caught by
the surrounding `except Exception` clause and re-raised as HTTP 500 — the
client observes 500, not the claimed 400; nothing is written either way. -/
theorem claim2_code_behavior (st : Store) (contents : List Nat)
    (chars : List Char)
    (hdec : utf8Decode contents = some chars)
    (hempty : buildUsers (csvRows chars) [] = .ok []) :
    upload_users (some st) contents =
      (.err 500 (.processingError (.httpException 400)), some st) := by
  unfold upload_users
  rw [hdec]
  show ((processText st chars).1, some (processText st chars).2) =
    (.err 500 (.processingError (.httpException 400)), some st)
  unfold processText
  rw [hempty]

/-- C2 (witness): the single-field text `"Ana;30"` has no well-formed
two-field row; the request fails with HTTP 500 wrapping the 400, and the
store is unchanged. -/
theorem claim2_witness :
    upload_users (some emptyStore) (utf8Encode "Ana;30") =
      (.err 500 (.processingError (.httpException 400)), some emptyStore) :=
  claim2_code_behavior emptyStore _ "Ana;30".data (by decide) (by decide)

/-- C3 (counterexample): the name `"  a  "` has raw length 5 ≥ 3 but trimmed
length 1 < 3; single-create does not fail — the pydantic validator checks
the raw length without trimming, so the request succeeds with HTTP 201. -/
theorem claim3_counterexample :
    single_create (some emptyStore) "  a  " 30 =
      (.ok ⟨genId 0, "  a  ", 30⟩, some ⟨[⟨genId 0, "  a  ", 30⟩], 1⟩) := by
  decide

/-- C3 (amended): the Record Validator does not trim: it accepts a name
exactly when the raw length is ≥ 3 (and the age is > 0). Trimming happens
only in the bulk-import path, which strips each field before handing it to
the validator, so only there does the trimmed length govern; a name whose
raw length is ≥ 3 but whose trimmed length is < 3 (e.g. `"  a  "`, see the
counterexample) therefore passes single-create validation. -/
theorem claim3_amended :
    (∀ nome idade, userCreate? nome idade = some ⟨nome, idade⟩ ↔
        3 ≤ nome.length ∧ 0 < idade)
    ∧ (∀ a b idade, pyInt? (pyStrip b) = some idade →
        rowUser [a, b] =
          if 3 ≤ (pyStrip a).length ∧ 0 < idade then
            .ok (some ⟨pyStrip a, idade⟩)
          else .error .validationError) := by
  constructor
  · intro nome idade
    constructor
    · intro h
      by_cases hc : 3 ≤ nome.length ∧ 0 < idade
      · exact hc
      · unfold userCreate? at h
        rw [if_neg hc] at h
        cases h
    · intro hc
      unfold userCreate?
      rw [if_pos hc]
  · intro a b idade hb
    have h1 : rowUser [a, b] =
        match pyInt? (pyStrip b) with
        | none => .error (.valueErrorInt (pyStrip b))
        | some idade =>
          match userCreate? (pyStrip a) idade with
          | none => .error .validationError
          | some u => .ok (some u) := rfl
    rw [h1, hb]
    show (match userCreate? (pyStrip a) idade with
          | none => (Except.error PyExc.validationError :
              Except PyExc (Option UserCreate))
          | some u => Except.ok (some u)) = _
    by_cases hc : 3 ≤ (pyStrip a).length ∧ 0 < idade
    · have hu : userCreate? (pyStrip a) idade = some ⟨pyStrip a, idade⟩ := by
        unfold userCreate?
        rw [if_pos hc]
      rw [hu, if_pos hc]
    · have hu : userCreate? (pyStrip a) idade = none := by
        unfold userCreate?
        rw [if_neg hc]
      rw [hu, if_neg hc]

/-- C3 (witness): a concrete bulk row is validated on its stripped fields. -/
theorem claim3_witness :
    (userCreate? "  a  " 30 = some ⟨"  a  ", 30⟩ ↔
        3 ≤ ("  a  " : String).length ∧ (0 : Int) < 30)
    ∧ rowUser [" Ana ", " 30 "] =
        (if 3 ≤ (pyStrip " Ana ").length ∧ (0 : Int) < 30 then
           .ok (some ⟨pyStrip " Ana ", 30⟩)
         else .error .validationError) :=
  ⟨claim3_amended.1 "  a  " 30,
   claim3_amended.2 " Ana " " 30 " 30 (by decide)⟩

/-- Evaluation of the update handler once the connection is up, the id
parses, and the field set is non-empty. -/
theorem update_user_eval (st : Store) (id oid : String) (u : UserUpdate)
    (hoid : objectIdOfString id = some oid)
    (hne : ¬(u.nome = none ∧ u.idade = none)) :
    update_user (some st) id u = updateCore st id oid u := by
  unfold update_user
  rw [hoid]
  show (if u.nome = none ∧ u.idade = none then
          ((.err 400 .noUpdateFields : ApiResult UserDB), some st)
        else updateCore st id oid u) = updateCore st id oid u
  rw [if_neg hne]

/-- C4 (counterexample): the store holds a document (id `genId 0`, name
`Ana`, age 30); updating that existing record with `{idade: 30}` — a valid
id and a non-empty field set — yields 404, because the `$set` changes
nothing, `modified_count` is 0, and the handler treats that as not-found. -/
theorem claim4_counterexample :
    update_user (some ⟨[⟨genId 0, "Ana", 30⟩], 1⟩) (genId 0) ⟨none, some 30⟩ =
      (.err 404 (.userNotFound (genId 0)), some ⟨[⟨genId 0, "Ana", 30⟩], 1⟩) := by
  decide

/-- C4 (amended): for a valid identifier and a non-empty field set, the
update answers 404 exactly when the `$set` modifies nothing — either no
document matches the identifier, or the first matching document is left
unchanged by the supplied fields; when the matching document does change,
the handler succeeds and returns the re-fetched updated record. (The claim's
"updating an existing record never yields not-found" fails: a no-op update
of an existing record yields 404, see the counterexample.) -/
theorem claim4_amended (st : Store) (id oid : String) (u : UserUpdate)
    (hoid : objectIdOfString id = some oid)
    (hne : ¬(u.nome = none ∧ u.idade = none)) :
    ((update_user (some st) id u).1 = .err 404 (.userNotFound id) ↔
      ∀ d, st.docs.find? (fun x => x._id == oid) = some d → applySet d u = d)
    ∧ (∀ d, st.docs.find? (fun x => x._id == oid) = some d → applySet d u ≠ d →
        update_user (some st) id u =
          (.ok (serializeDoc (applySet d u)),
           some ⟨(updateDocs st.docs oid u).1, st.nextId⟩)) := by
  have hev := update_user_eval st id oid u hoid hne
  cases hfind : st.docs.find? (fun x => x._id == oid) with
  | none =>
    have hnone := List.find?_eq_none.mp hfind
    have hupd : updateDocs st.docs oid u = (st.docs, 0) :=
      updateDocs_not_found _ _ _
        (fun x hx hxeq => hnone x hx (beq_iff_eq.mpr hxeq))
    have hcore : updateCore st id oid u =
        (.err 404 (.userNotFound id), some ⟨(updateDocs st.docs oid u).1, st.nextId⟩) := by
      unfold updateCore
      rw [hupd]
      rfl
    constructor
    · apply iff_of_true
      · rw [hev, hcore, hupd]
      · intro d hd
        exact Option.noConfusion hd
    · intro d hd
      exact Option.noConfusion hd
  | some d0 =>
    by_cases hnoop : applySet d0 u = d0
    · have hupd : updateDocs st.docs oid u = (st.docs, 0) :=
        updateDocs_noop _ _ _ _ hfind hnoop
      have hcore : updateCore st id oid u =
          (.err 404 (.userNotFound id), some ⟨(updateDocs st.docs oid u).1, st.nextId⟩) := by
        unfold updateCore
        rw [hupd]
        rfl
      constructor
      · apply iff_of_true
        · rw [hev, hcore, hupd]
        · intro d hd
          obtain rfl : d0 = d := by injection hd
          exact hnoop
      · intro d hd hmod
        obtain rfl : d0 = d := by injection hd
        exact absurd hnoop hmod
    · obtain ⟨h2, hfindnew⟩ := updateDocs_mod _ _ _ _ hfind hnoop
      have hfo : find_one ⟨(updateDocs st.docs oid u).1, st.nextId⟩ oid =
          some (applySet d0 u) := hfindnew
      have hcore : updateCore st id oid u =
          (.ok (serializeDoc (applySet d0 u)),
           some ⟨(updateDocs st.docs oid u).1, st.nextId⟩) := by
        unfold updateCore
        rw [h2, if_pos rfl, hfo]
      constructor
      · apply iff_of_false
        · rw [hev, hcore]
          simp
        · intro hall
          exact hnoop (hall d0 rfl)
      · intro d hd hmod
        obtain rfl : d0 = d := by injection hd
        exact hev.trans hcore

/-- C4 (witness): a real modification of an existing record succeeds and
returns the re-fetched updated record. -/
theorem claim4_witness :
    update_user (some ⟨[⟨genId 0, "Ana", 30⟩], 1⟩) (genId 0) ⟨none, some 31⟩ =
      (.ok (serializeDoc (applySet ⟨genId 0, "Ana", 30⟩ ⟨none, some 31⟩)),
       some ⟨(updateDocs [⟨genId 0, "Ana", 30⟩] (genId 0) ⟨none, some 31⟩).1, 1⟩) :=
  (claim4_amended ⟨[⟨genId 0, "Ana", 30⟩], 1⟩ (genId 0) (genId 0) ⟨none, some 31⟩
      (by decide) (by decide)).2 ⟨genId 0, "Ana", 30⟩ (by decide) (by decide)

/-- C5: in the bulk-import path a row that does not have exactly two fields
is skipped: deleting it from the row sequence changes neither the error
behaviour nor the accumulated records (hence it causes no store write). -/
theorem claim5_skip_rows (rows1 : List (List String)) (row : List String)
    (rows2 : List (List String)) (acc : List UserCreate)
    (h : row.length ≠ 2) :
    buildUsers (rows1 ++ row :: rows2) acc = buildUsers (rows1 ++ rows2) acc := by
  have hrow : rowUser row = .ok none := by
    unfold rowUser
    rw [if_neg h]
  induction rows1 generalizing acc with
  | nil =>
    show (match rowUser row with
          | .error e => Except.error e
          | .ok none => buildUsers rows2 acc
          | .ok (some u) => buildUsers rows2 (acc ++ [u])) = buildUsers rows2 acc
    rw [hrow]
  | cons r rs ih =>
    show (match rowUser r with
          | .error e => Except.error e
          | .ok none => buildUsers (rs ++ row :: rows2) acc
          | .ok (some u) => buildUsers (rs ++ row :: rows2) (acc ++ [u])) =
         (match rowUser r with
          | .error e => Except.error e
          | .ok none => buildUsers (rs ++ rows2) acc
          | .ok (some u) => buildUsers (rs ++ rows2) (acc ++ [u]))
    cases rowUser r with
    | error e => rfl
    | ok o =>
      cases o with
      | none => exact ih acc
      | some u => exact ih (acc ++ [u])

/-- C5 (witness): a one-field row in the middle of an import is skipped. -/
theorem claim5_witness :
    buildUsers [["Ana", "30"], ["solo"], ["Carla Mendes", "28"]] [] =
      buildUsers [["Ana", "30"], ["Carla Mendes", "28"]] [] :=
  claim5_skip_rows [["Ana", "30"]] ["solo"] [["Carla Mendes", "28"]] []
    (by decide)

/-- C6: an update whose partial-field set is empty fails with HTTP 400 for
every identifier, well-formed or not, existing or not, and the store is
returned unchanged (no store modification is attempted). -/
theorem claim6_empty_update (st : Store) (id : String) :
    ∃ detail, update_user (some st) id ⟨none, none⟩ =
      (.err 400 detail, some st) := by
  unfold update_user
  cases h : objectIdOfString id with
  | none => exact ⟨.idInvalid, rfl⟩
  | some oid => exact ⟨.noUpdateFields, rfl⟩

/-- C7: a syntactically invalid identifier makes get, update and delete fail
with HTTP 400 ("ID inválido") for every store state, returning the store
unchanged — the check short-circuits before any store operation. -/
theorem claim7_invalid_id (st : Store) (id : String) (u : UserUpdate)
    (hid : objectIdOfString id = none) :
    get_user (some st) id = .err 400 .idInvalid ∧
    update_user (some st) id u = (.err 400 .idInvalid, some st) ∧
    delete_user (some st) id = (.err 400 .idInvalid, some st) := by
  unfold get_user update_user delete_user
  rw [hid]
  exact ⟨rfl, rfl, rfl⟩

/-- C7 (witness): `"nope"` is not a 24-hex-digit ObjectId. -/
theorem claim7_witness :
    get_user (some emptyStore) "nope" = .err 400 .idInvalid ∧
    update_user (some emptyStore) "nope" ⟨some "Carla", none⟩ =
      (.err 400 .idInvalid, some emptyStore) ∧
    delete_user (some emptyStore) "nope" = (.err 400 .idInvalid, some emptyStore) :=
  claim7_invalid_id emptyStore "nope" ⟨some "Carla", none⟩ (by decide)

/-- C8: for every valid pair — trimmed name length ≥ 3 and age > 0 — and any
store in which the next generated identifier is fresh, create succeeds
(single insert then re-fetch) and a subsequent get on the returned
identifier yields a record with the same name and age and a non-empty
identifier string. -/
theorem claim8_create_get (st : Store) (nome : String) (idade : Int)
    (hn : 3 ≤ (pyStrip nome).length) (ha : 0 < idade)
    (hfresh : ∀ d ∈ st.docs, d._id ≠ genId st.nextId) :
    ∃ rec st', single_create (some st) nome idade = (.ok rec, some st') ∧
      rec.nome = nome ∧ rec.idade = idade ∧ rec.id ≠ "" ∧
      get_user (some st') rec.id = .ok rec := by
  have hn' : 3 ≤ nome.length := le_trans hn (pyStrip_length_le nome)
  have hv : userCreate? nome idade = some ⟨nome, idade⟩ := by
    unfold userCreate?
    rw [if_pos ⟨hn', ha⟩]
  have hins := find_one_insert st ⟨nome, idade⟩ hfresh
  refine ⟨⟨genId st.nextId, nome, idade⟩,
    ⟨st.docs ++ [⟨genId st.nextId, nome, idade⟩], st.nextId + 1⟩, ?_, rfl, rfl,
    genId_ne_empty _, ?_⟩
  · unfold single_create
    rw [hv]
    show (match find_one (insert_one st ⟨nome, idade⟩).2 (insert_one st ⟨nome, idade⟩).1 with
          | some d => ((.ok (serializeDoc d) : ApiResult UserDB),
              some (insert_one st ⟨nome, idade⟩).2)
          | none => (.err 500 .internalError, some (insert_one st ⟨nome, idade⟩).2)) =
      (.ok ⟨genId st.nextId, nome, idade⟩,
       some ⟨st.docs ++ [⟨genId st.nextId, nome, idade⟩], st.nextId + 1⟩)
    rw [hins]
    rfl
  · have hins' : find_one
        (⟨st.docs ++ [⟨genId st.nextId, nome, idade⟩], st.nextId + 1⟩ : Store)
        (genId st.nextId) = some ⟨genId st.nextId, nome, idade⟩ := hins
    unfold get_user
    rw [objectId_genId]
    show (match find_one
            (⟨st.docs ++ [⟨genId st.nextId, nome, idade⟩], st.nextId + 1⟩ : Store)
            (genId st.nextId) with
          | some d => (.ok (serializeDoc d) : ApiResult UserDB)
          | none => .err 404 (.userNotFound (genId st.nextId))) =
      .ok ⟨genId st.nextId, nome, idade⟩
    rw [hins']
    rfl

/-- C8 (witness): creating `("Ana", 30)` in the empty store and getting it
back. -/
theorem claim8_witness :
    ∃ rec st', single_create (some emptyStore) "Ana" 30 = (.ok rec, some st') ∧
      rec.nome = "Ana" ∧ rec.idade = 30 ∧ rec.id ≠ "" ∧
      get_user (some st') rec.id = .ok rec :=
  claim8_create_get emptyStore "Ana" 30 (by decide) (by decide)
    (fun d hd => absurd hd (by simp [emptyStore]))

/-- C9: bytes that are not valid UTF-8 make the upload fail as a processing
error (HTTP 500) with the store unchanged — zero records written. -/
theorem claim9_decode_failure (st : Store) (contents : List Nat)
    (h : utf8Decode contents = none) :
    upload_users (some st) contents =
      (.err 500 (.processingError .unicodeDecodeError), some st) := by
  unfold upload_users
  rw [h]

/-- C9 (witness): the single byte 0xFF is not valid UTF-8. -/
theorem claim9_witness :
    upload_users (some emptyStore) [0xFF] =
      (.err 500 (.processingError .unicodeDecodeError), some emptyStore) :=
  claim9_decode_failure emptyStore [0xFF] (by decide)

/-- C10: with no established store connection (`users_collection is None`),
every endpoint answers HTTP 503 before any other check: in particular a
malformed identifier still yields 503, not 400, because
`check_db_connection` runs first in every handler. -/
theorem claim10_conn_check_first (id : String) (u : UserUpdate)
    (uc : UserCreate) (contents : List Nat) :
    get_user none id = .err 503 .dbUnavailable ∧
    update_user none id u = (.err 503 .dbUnavailable, none) ∧
    delete_user none id = (.err 503 .dbUnavailable, none) ∧
    create_user none uc = (.err 503 .dbUnavailable, none) ∧
    list_users none = .err 503 .dbUnavailable ∧
    upload_users none contents = (.err 503 .dbUnavailable, none) :=
  ⟨rfl, rfl, rfl, rfl, rfl, rfl⟩
